import Mathlib

/-!
Shallow embedding of the core of `wamd` (a WhatsApp multi-device client),
translated from `src/wamd/protocol.py` and `src/wamd/handlers/failure.py`.

Pure byte helpers (`encodeInt`, `decodeInt`, `splitJid`) live in `coder.py`,
which is not part of the sources at hand; they are modelled from the spec
(24-bit / 32-bit big-endian integers, jid splitting).  External collaborators
(AES-GCM, protobuf serialization, the binary-XML node reader) are taken as
parameters of the functions that call them, exactly where the Python code
calls out to them.
-/

namespace Wamd

/-- Modelled from the spec: `coder.encodeInt(n, k)` (coder.py is not under
src/) renders `n` as `k` big-endian bytes, as in "a big-endian 24-bit length"
and "`eRegid` as 32-bit big-endian of registrationId". -/
def encodeInt (n k : Nat) : List Nat :=
  (List.range k).map (fun i => n / 256 ^ (k - 1 - i) % 256)

/-- Modelled from the spec: `coder.decodeInt(bytes, k)` (coder.py is not under
src/), big-endian accumulation of the byte list. -/
def decodeIntBytes (bs : List Nat) : Nat :=
  bs.foldl (fun acc b => acc * 256 + b) 0

mutual

/-- Node: "a tag (short string), an attribute mapping (string→string), and
content that is either bytes, a single child node, or an ordered sequence of
children" (spec §3; `coder.Node` itself is not under src/). -/
inductive Node where
  | mk (tag : String) (attrs : List (String × String)) (content : NodeContent)

inductive NodeContent where
  | none
  | bytes (bs : List Nat)
  | child (n : Node)
  | children (ns : List Node)

end

def Node.tag : Node → String
  | .mk t _ _ => t

/-- Attribute lookup, `node[key]` on the Python `Node`. -/
def Node.attr (n : Node) (k : String) : Option String :=
  match n with
  | .mk _ attrs _ => (attrs.find? (fun p => p.1 = k)).map Prod.snd

/-- Exception values that flow through the client (`errors.py` is not under
src/; constructors and their fields follow the spec's error taxonomy, §6/§7,
plus the Python built-in exceptions the code can raise).  The keyword defaults
of `ConnectionClosedError` are modelled from the spec's
`ConnectionClosed(isLoggedOut?, isAuthDone?, reason)`: `isLoggedOut=False`,
`isAuthDone=True` unless explicitly passed. -/
inductive PyException where
  | connectionClosed (isLoggedOut : Bool) (isAuthDone : Bool) (reason : String)
  | authenticationFailed (reason : String)
  | nodeStreamError (code : String)
  | streamEnd
  | nameError (name : String)
  | attributeError (msg : String)
  | valueError (msg : String)
  | indexError (msg : String)
  | other (desc : String)
deriving DecidableEq

/-- Rough `str(failure)` used only to build the "Unknown Failure" reason
string in `onClose`. -/
def PyException.describe : PyException → String
  | .connectionClosed _ _ r => "ConnectionClosedError: " ++ r
  | .authenticationFailed r => "AuthenticationFailedError: " ++ r
  | .nodeStreamError c => "NodeStreamError: " ++ c
  | .streamEnd => "StreamEndError"
  | .nameError n => "NameError: " ++ n
  | .attributeError m => "AttributeError: " ++ m
  | .valueError m => "ValueError: " ++ m
  | .indexError m => "IndexError: " ++ m
  | .other d => d

/-- One-shot completion slot (a twisted `Deferred`) held in the
pending-request table. -/
inductive DeferredState where
  | pending
  | succeeded
  | failed (e : PyException)
deriving DecidableEq

/-- Post-handshake AEAD cipher state: 32-byte key plus a monotonically
increasing nonce (dissononce `CipherState`). -/
structure CipherSt where
  key : List Nat
  nonce : Nat
deriving DecidableEq

/-- Side effects the protocol object performs on its websocket transport. -/
inductive Effect where
  | sendClose (code : Nat)
  | wsSend (payload : List Nat)
deriving DecidableEq

/-- Effects performed in `onClose`: failing the factory's auth deferred, or
firing the "close" event with a reason. -/
inductive CloseEffect where
  | authFailure (f : PyException)
  | closeEvent (e : PyException)
deriving DecidableEq

/-- The mutable state of `MultiDeviceWhatsAppClientProtocol` (together with
the factory's `authDeferred`) that the modelled methods read and write. -/
structure ConnState where
  /-- `self.factory.authDeferred is not None` -/
  authDeferredPresent : Bool
  /-- `self._failure` -/
  failure : Option PyException
  /-- `self._sendCipher` -/
  sendCipher : Option CipherSt
  /-- `self._recvCipher` -/
  recvCipher : Option CipherSt
  /-- `self._pendingRequest`, a Python dict from `node['id']` to a Deferred -/
  pendingRequest : List (Option String × DeferredState)
  /-- whether `self._keepAliveLoop` is present and running -/
  keepAliveRunning : Bool
deriving DecidableEq

/-- `MultiDeviceWhatsAppClientProtocol._authDone`:
`return self.factory.authDeferred is None`. -/
def authDone (st : ConnState) : Bool :=
  !st.authDeferredPresent

/-- `MultiDeviceWhatsAppClientProtocol._handleFailure(failure, disconnect=False)`:
records the failure, clears the cipher pair while authentication is not done,
and sends a code-1000 websocket close only when `disconnect` is `True`. -/
def handleFailure (st : ConnState) (f : PyException) (disconnect : Bool) :
    ConnState × List Effect :=
  let st1 := { st with failure := some f }
  let st2 :=
    if authDone st1 then st1
    else { st1 with sendCipher := none, recvCipher := none }
  if disconnect then (st2, [.sendClose 1000]) else (st2, [])

/-- The errback `authenticate()` / `onOpen()` attach to `_doHandshake()`:
`d.addErrback(self._handleFailure)` passes only the failure, so `disconnect`
keeps its default `False`. -/
def doHandshakeErrback (st : ConnState) (f : PyException) :
    ConnState × List Effect :=
  handleFailure st f false

/-- The `excReason` computed in `onClose` when the close event is fired. -/
def closeReason (failure : Option PyException) : PyException :=
  match failure with
  | none => .connectionClosed false true "Connection Closed Cleanly"
  | some (.nodeStreamError code) =>
      if code = "401" then .connectionClosed true true "Device Logged Out"
      else .connectionClosed false true "Unhandled Stream Error"
  | some (.authenticationFailed _) =>
      .connectionClosed false false "Authentication Failed"
  | some f => .connectionClosed false true ("Unknown Failure: \n" ++ f.describe)

/-- `MultiDeviceWhatsAppClientProtocol.onClose(wasClean, code, reason)`:
stops the keep-alive loop, takes `self._failure`, and either fails the
factory's auth deferred (when a failure was recorded and the deferred is
still present) or fires a single "close" event with the mapped reason.
The pending-request table is not touched. -/
def onClose (st : ConnState) : ConnState × List CloseEffect :=
  let st1 := { st with keepAliveRunning := false }
  match st1.failure with
  | some f =>
      let st2 := { st1 with failure := none }
      if st2.authDeferredPresent then
        ({ st2 with authDeferredPresent := false }, [.authFailure f])
      else
        (st2, [.closeEvent (closeReason (some f))])
  | none => (st1, [.closeEvent (closeReason none)])

/-- Python dict insertion: replace in place when the key exists, append
otherwise (`self._pendingRequest[node['id']] = deferred`). -/
def dictInsert (k : Option String) (v : DeferredState) :
    List (Option String × DeferredState) → List (Option String × DeferredState)
  | [] => [(k, v)]
  | (k', v') :: rest =>
      if k' = k then (k, v) :: rest else (k', v') :: dictInsert k v rest

/-- Keys of the pending-request table are pairwise distinct (a Python dict
holds at most one slot per key). -/
def pendingKeysNodup (tbl : List (Option String × DeferredState)) : Prop :=
  (tbl.map Prod.fst).Nodup

/-- A length-prefixed wire frame: `encodeInt(len(payload), 3) + payload`,
the shape built by `sendMessageNode` / `_doHandshake` and consumed by the
`onMessage` splitting loop. -/
def encodeFrame (payload : List Nat) : List Nat :=
  encodeInt payload.length 3 ++ payload

/-- Result of a call to `request(node)`: the protocol state after the call,
the websocket binary messages written, and whether the call returned a
deferred (`.ok ()`) or let an exception propagate to the caller
(`.error e`). -/
structure RequestResult where
  state : ConnState
  sent : List (List Nat)
  outcome : Except PyException Unit

/-- `MultiDeviceWhatsAppClientProtocol.sendMessageNode(node)`:
`b"\x00" + WABinaryWriter(node).getData()` is sealed with
`self._sendCipher.encrypt_with_ad(b"", encoded)`, length-prefixed and sent.
`writeNode` stands for the external `WABinaryWriter(...).getData()` and
`encryptWithAd` for the external AES-GCM seal (which also advances the
cipher's nonce).  When `self._sendCipher` is `None`, the attribute access
`encrypt_with_ad` raises `AttributeError`. -/
def sendMessageNode (writeNode : Node → List Nat)
    (encryptWithAd : CipherSt → List Nat → List Nat → CipherSt × List Nat)
    (st : ConnState) (node : Node) :
    Except PyException (ConnState × List (List Nat)) :=
  match st.sendCipher with
  | none => .error (.attributeError "NoneType object has no attribute encrypt_with_ad")
  | some c =>
      let encoded := 0 :: writeNode node
      let (c', encrypted) := encryptWithAd c [] encoded
      let payload := encodeFrame encrypted
      .ok ({ st with sendCipher := some c' }, [payload])

/-- `MultiDeviceWhatsAppClientProtocol.request(node)`: inserts a fresh
pending deferred under `node['id']` and then calls `sendMessageNode`; the
dict insertion happens before any send, so it persists even when
`sendMessageNode` raises. -/
def request (writeNode : Node → List Nat)
    (encryptWithAd : CipherSt → List Nat → List Nat → CipherSt × List Nat)
    (st : ConnState) (node : Node) : RequestResult :=
  let st1 := { st with
    pendingRequest := dictInsert (node.attr "id") .pending st.pendingRequest }
  match sendMessageNode writeNode encryptWithAd st1 node with
  | .error e => ⟨st1, [], .error e⟩
  | .ok (st2, sent) => ⟨st2, sent, .ok ()⟩

/-- The frame-splitting loop at the top of `onMessage`:
`while message: messageLength = decodeInt(message[:3], 3);
encrypted = message[3:messageLength+3]; message = message[messageLength+3:]`.
Python slicing never fails, so an over-long declared length yields a
truncated frame and empties the buffer. -/
def splitFrames (msg : List Nat) : List (List Nat) :=
  if h : msg = [] then []
  else
    let len := decodeIntBytes (msg.take 3)
    ((msg.drop 3).take len) :: splitFrames (msg.drop (len + 3))
termination_by msg.length
decreasing_by
  simp only [List.length_drop]
  have : 0 < msg.length := List.length_pos.mpr h
  omega

/-- Modelled from the spec: `Constants.FLAG_COMPRESSED` (constants.py is not
under src/), "Bit FLAG_COMPRESSED (value fixed by the protocol) indicates the
remaining bytes are deflate-compressed". -/
def FLAG_COMPRESSED : Nat := 2

/-- External collaborators used by the post-handshake inbound path:
`recvCipher.decrypt_with_ad(b"", ...)` (advancing the nonce), `inflate`, and
`WABinaryReader(...).readNode()` (which raises `StreamEndError` at an
end-of-stream sentinel). -/
structure InboundCodec where
  decryptWithAd : CipherSt → List Nat → Except PyException (CipherSt × List Nat)
  inflate : List Nat → Except PyException (List Nat)
  readNode : List Nat → Except PyException Node

/-- Per-frame plaintext handling in `onMessage`: `decrypted[0]` (IndexError
on the empty list), the `FLAG_COMPRESSED` test, then `readNode`. -/
def decodeFramePlain (cd : InboundCodec) (decrypted : List Nat) :
    Except PyException Node :=
  match decrypted with
  | [] => .error (.indexError "index out of range")
  | flag :: rest =>
      if flag &&& FLAG_COMPRESSED ≠ 0 then
        match cd.inflate rest with
        | .error e => .error e
        | .ok plain => cd.readNode plain
      else cd.readNode rest

/-- The body of the post-handshake `while message:` loop of `onMessage`,
run over the already split frames: each frame is decrypted when
`self._recvCipher` is present (a decryption error is routed through
`_handleFailure(..., disconnect=True)` and the loop continues), the flag
byte is honored, `StreamEndError` from `readNode` is silently swallowed, any
other decoding exception propagates, and each decoded node is handed to
`messageNodeReceived` in order (collected in the returned list). -/
def onMessageFrames (cd : InboundCodec) (st : ConnState) :
    List (List Nat) → Except PyException (ConnState × List Node × List Effect)
  | [] => .ok (st, [], [])
  | encrypted :: rest =>
      match st.recvCipher with
      | none => onMessageFrames cd st rest
      | some c =>
          match cd.decryptWithAd c encrypted with
          | .error e =>
              let (st', effs) := handleFailure st e true
              match onMessageFrames cd st' rest with
              | .error e' => .error e'
              | .ok (st'', nodes, effs') => .ok (st'', nodes, effs ++ effs')
          | .ok (c', decrypted) =>
              let st' := { st with recvCipher := some c' }
              match decodeFramePlain cd decrypted with
              | .error .streamEnd => onMessageFrames cd st' rest
              | .error e => .error e
              | .ok node =>
                  match onMessageFrames cd st' rest with
                  | .error e' => .error e'
                  | .ok (st'', nodes, effs') => .ok (st'', node :: nodes, effs')

/-- `onMessage` in its post-handshake branch (`self._serverHelloDeferred is
None`): split the websocket binary message into length-prefixed frames and
process each in order. -/
def onMessage (cd : InboundCodec) (st : ConnState) (message : List Nat) :
    Except PyException (ConnState × List Node × List Effect) :=
  onMessageFrames cd st (splitFrames message)

/-- The certificate details protobuf: `Details{issuer, key, expires?}`;
`expires = none` models `HasField("expires")` being false. -/
structure CertDetails where
  issuer : String
  key : List Nat
  expires : Option Nat
deriving DecidableEq

/-- The certificate-verification sequence of `_doHandshake` (protocol.py
lines 213–227).  `issuerConst` stands for `Constants.CERTIFICATE_ISSUER`,
`signatureOk` for the external `curve.Curve.verifySignature(...)` result,
`rs` for `self._noiseHandshakeState.rs.data`, and `now` for
`int(time.time())`. -/
def verifyCertificate (issuerConst : String) (signatureOk : Bool)
    (rs : List Nat) (det : CertDetails) (now : Nat) :
    Except PyException Unit :=
  if det.issuer ≠ issuerConst then
    .error (.authenticationFailed
      ("Noise certificate issued by unknown source: " ++ det.issuer))
  else if !signatureOk then
    .error (.authenticationFailed "Invalid signature on noise ceritificate")
  else if det.key ≠ rs then
    .error (.authenticationFailed
      "Noise certificate key does not match proposed server static key")
  else
    match det.expires with
    | some e =>
        if e < now then .error (.authenticationFailed "Noise certificate expired")
        else .ok ()
    | none => .ok ()

/-- `FailureHandler.handleNode(conn, node)` from
`src/wamd/handlers/failure.py`: before authentication is done it builds
`AuthenticationFailedError("Authentication Failed: %s" % (attrs['reason']))`
— but `attrs` is an unbound name, so evaluating the argument raises
`NameError` before `_handleFailure` can run; after authentication is done
the handler does nothing at all. -/
def FailureHandler.handleNode (conn : ConnState) (_node : Node) :
    Except PyException (ConnState × List Effect) :=
  if !(authDone conn) then .error (.nameError "attrs")
  else .ok (conn, [])

/-- The `me` record of AuthState, populated only after successful pairing. -/
structure MeRecord where
  jid : String
deriving DecidableEq

/-- The slice of `AuthState` read by `_buildClientPayloadHandshake`:
registration id, the signed identity public key bytes, the signed prekey
(id, public key, signature), and the optional `me` record. -/
structure AuthStateM where
  registrationId : Nat
  signedIdentityKeyPub : List Nat
  signedPrekeyId : Nat
  signedPrekeyPub : List Nat
  signedPrekeySig : List Nat
  me : Option MeRecord
deriving DecidableEq

/-- `CompanionProps` protobuf fields set by the builder. -/
structure CompanionProps where
  os : String
  versionPrimary : Nat
  platformType : Nat
  requireFullSync : Bool
deriving DecidableEq

/-- `CompanionRegData` protobuf fields set by the builder.  The nested
`companionProps` is kept structured rather than protobuf-serialized
(serialization is an external collaborator). -/
structure CompanionRegData where
  buildHash : List Nat
  companionProps : CompanionProps
  eRegid : List Nat
  eKeytype : List Nat
  eIdent : List Nat
  eSkeyId : List Nat
  eSkeyVal : List Nat
  eSkeySig : List Nat
deriving DecidableEq

/-- `UserAgent` protobuf fields set by the builder. -/
structure UserAgentM where
  appVersionPrimary : Nat
  appVersionSecondary : Nat
  appVersionTertiary : Nat
  platform : Nat
  releaseChannel : Nat
  mcc : String
  mnc : String
  osVersion : String
  manufacturer : String
  device : String
  osBuildNumber : String
  localeLanguageIso6391 : String
  localeCountryIso31661Alpha2 : String
deriving DecidableEq

/-- The `ClientPayload` protobuf fields set by
`_buildClientPayloadHandshake`.  `regData`, `username` and `device` are
optional protobuf fields, absent unless set. -/
structure ClientPayload where
  connectReason : Nat
  connectType : Nat
  passive : Bool
  regData : Option CompanionRegData
  username : Option Nat
  device : Option Nat
  userAgent : UserAgentM
  webInfoWebSubPlatform : Nat
deriving DecidableEq

/-- Decimal parse of a character list, accumulating left to right; `none`
when a non-digit is met. -/
def parseDecimalDigits : List Char → Nat → Option Nat
  | [], acc => some acc
  | c :: cs, acc =>
      if c.isDigit then parseDecimalDigits cs (acc * 10 + (c.toNat - 48))
      else none

/-- Python `int(s)` on the pieces of a jid: modelled as decimal parsing,
raising `ValueError` when the string is empty or not a number. -/
def parsePyInt (s : String) : Except PyException Nat :=
  match s.data with
  | [] => .error (.valueError ("invalid literal for int with base 10: " ++ s))
  | cs =>
      match parseDecimalDigits cs 0 with
      | some n => .ok n
      | none =>
          .error (.valueError ("invalid literal for int with base 10: " ++ s))

/-- `MultiDeviceWhatsAppClientProtocol._buildClientPayloadHandshake()`.
`browser` stands for `Constants.DEFAULT_BROWSER_KIND` (a triple),
`version` for `Constants.WHATSAPP_WEB_VERSION` (a triple),
`buildHashDecoded` for `base64.b64decode(Constants.BUILD_HASH)`, and
`splitJid` for `coder.splitJid` mapping a jid to
`(user, agent, device, server)` (constants.py and coder.py are not under
src/; their behavior here is modelled from the spec). -/
def buildClientPayloadHandshake
    (browser : String × String × String) (version : Nat × Nat × Nat)
    (buildHashDecoded : List Nat)
    (splitJid : String → String × String × String × String)
    (auth : AuthStateM) : Except PyException ClientPayload :=
  let userAgent : UserAgentM := {
    appVersionPrimary := version.1
    appVersionSecondary := version.2.1
    appVersionTertiary := version.2.2
    platform := 14
    releaseChannel := 0
    mcc := "000"
    mnc := "000"
    osVersion := browser.2.2
    manufacturer := ""
    device := browser.2.1
    osBuildNumber := "0.1"
    localeLanguageIso6391 := "en"
    localeCountryIso31661Alpha2 := "en" }
  match auth.me with
  | none =>
      let props : CompanionProps := {
        os := browser.1
        versionPrimary := 10
        platformType := 1
        requireFullSync := false }
      let regData : CompanionRegData := {
        buildHash := buildHashDecoded
        companionProps := props
        eRegid := encodeInt auth.registrationId 4
        eKeytype := encodeInt 5 1
        eIdent := auth.signedIdentityKeyPub
        eSkeyId := encodeInt auth.signedPrekeyId 3
        eSkeyVal := auth.signedPrekeyPub
        eSkeySig := auth.signedPrekeySig }
      .ok {
        connectReason := 1
        connectType := 1
        passive := false
        regData := some regData
        username := none
        device := none
        userAgent := userAgent
        webInfoWebSubPlatform := 0 }
  | some me =>
      let user := (splitJid me.jid).1
      let device := (splitJid me.jid).2.2.1
      match parsePyInt user with
      | .error e => .error e
      | .ok username =>
          match parsePyInt device with
          | .error e => .error e
          | .ok deviceNum =>
              .ok {
                connectReason := 1
                connectType := 1
                passive := true
                regData := none
                username := some username
                device := some deviceNum
                userAgent := userAgent
                webInfoWebSubPlatform := 0 }

/-- The `_messageTagCounter` / `_messageTagPrefix` pair read and written by
`_generateMessageId`. -/
structure MsgIdState where
  messageTagCounter : Nat
  messageTagPfx : Option String
deriving DecidableEq

/-- `MultiDeviceWhatsAppClientProtocol._generateMessageId()`.  `freshPfx`
stands for the `"%s.%s" % (generateRandomNumber(5), generateRandomNumber(5))`
value drawn when `self._messageTagPrefix is None`.  The counter is
incremented, the id is `prefix "-" suffix` with suffix `str(counter + 1)`,
and when the incremented counter reaches 99 both fields reset. -/
def generateMessageId (freshPfx : String) (st : MsgIdState) : String × MsgIdState :=
  let p := match st.messageTagPfx with
    | none => freshPfx
    | some q => q
  let sfx := toString (st.messageTagCounter + 1)
  let c := st.messageTagCounter + 1
  let tag := p ++ "-" ++ sfx
  if c = 99 then (tag, ⟨0, none⟩) else (tag, ⟨c, some p⟩)

/-- Iterated calls to `_generateMessageId`, collecting the returned ids.
The same `freshPfx` is threaded to every call; it is only consulted by the
call that finds `_messageTagPrefix is None`. -/
def genSeq (freshPfx : String) : Nat → MsgIdState → List String × MsgIdState
  | 0, st => ([], st)
  | n + 1, st =>
      let r := generateMessageId freshPfx st
      let rest := genSeq freshPfx n r.2
      (r.1 :: rest.1, rest.2)

/-- Reachability invariant of the generator state: the counter stays below
99 between calls, and a missing prefix implies a zero counter. -/
def msgIdInv (st : MsgIdState) : Prop :=
  st.messageTagCounter ≤ 98 ∧ (st.messageTagPfx = none → st.messageTagCounter = 0)

/-! ## Helper lemmas -/

theorem encodeInt_length (n k : Nat) : (encodeInt n k).length = k := by
  simp [encodeInt]

theorem decodeIntBytes_encodeInt3 (n : Nat) (h : n < 2 ^ 24) :
    decodeIntBytes (encodeInt n 3) = n := by
  have h3 : List.range 3 = [0, 1, 2] := rfl
  simp only [encodeInt, decodeIntBytes, h3, List.map_cons, List.map_nil,
    List.foldl_cons, List.foldl_nil]
  norm_num
  omega

theorem dictInsert_keys (k : Option String) (v : DeferredState)
    (tbl : List (Option String × DeferredState)) :
    (dictInsert k v tbl).map Prod.fst =
      if k ∈ tbl.map Prod.fst then tbl.map Prod.fst
      else tbl.map Prod.fst ++ [k] := by
  induction tbl with
  | nil => simp [dictInsert]
  | cons hd tl ih =>
      obtain ⟨k', v'⟩ := hd
      by_cases h : k' = k
      · subst h
        simp [dictInsert]
      · simp only [dictInsert, if_neg h, List.map_cons, ih, List.mem_cons]
        by_cases hm : k ∈ tl.map Prod.fst
        · simp [hm]
        · simp [hm, Ne.symm h]

theorem dictInsert_keysNodup (k : Option String) (v : DeferredState)
    (tbl : List (Option String × DeferredState)) (h : pendingKeysNodup tbl) :
    pendingKeysNodup (dictInsert k v tbl) := by
  unfold pendingKeysNodup at h ⊢
  rw [dictInsert_keys]
  by_cases hm : k ∈ tbl.map Prod.fst
  · simpa [hm] using h
  · simp only [hm, if_false]
    exact h.append (List.nodup_singleton k) (List.disjoint_singleton.mpr hm)

theorem splitFrames_encodeFrame_append (a rest : List Nat)
    (h : a.length < 2 ^ 24) :
    splitFrames (encodeFrame a ++ rest) = a :: splitFrames rest := by
  have hlen : (encodeInt a.length 3).length = 3 := encodeInt_length _ _
  have hne : encodeFrame a ++ rest ≠ [] := by
    intro hc
    have hl := congrArg List.length hc
    simp [encodeFrame, hlen] at hl
  have hassoc : encodeFrame a ++ rest = encodeInt a.length 3 ++ (a ++ rest) := by
    simp [encodeFrame]
  have htake : (encodeFrame a ++ rest).take 3 = encodeInt a.length 3 := by
    rw [hassoc]; exact List.take_left' hlen
  have hdecode : decodeIntBytes ((encodeFrame a ++ rest).take 3) = a.length := by
    rw [htake]; exact decodeIntBytes_encodeInt3 a.length h
  have hdrop3 : (encodeFrame a ++ rest).drop 3 = a ++ rest := by
    rw [hassoc]; exact List.drop_left' hlen
  have hlen2 : (encodeInt a.length 3 ++ a).length = a.length + 3 := by
    simp [hlen]; omega
  have hdropall : (encodeFrame a ++ rest).drop (a.length + 3) = rest := by
    show ((encodeInt a.length 3 ++ a) ++ rest).drop (a.length + 3) = rest
    exact List.drop_left' hlen2
  rw [splitFrames, dif_neg hne]
  simp only [hdecode, hdrop3, hdropall]
  rw [List.take_left' rfl]

theorem splitFrames_nil : splitFrames [] = [] := by
  rw [splitFrames]
  simp

theorem splitFrames_truncated (L : Nat) (bs : List Nat)
    (h1 : bs.length < L) (h2 : L < 2 ^ 24) :
    splitFrames (encodeInt L 3 ++ bs) = [bs] := by
  have hlen : (encodeInt L 3).length = 3 := encodeInt_length _ _
  have hne : encodeInt L 3 ++ bs ≠ [] := by
    intro hc
    have hl := congrArg List.length hc
    simp [hlen] at hl
  have htake : (encodeInt L 3 ++ bs).take 3 = encodeInt L 3 :=
    List.take_left' hlen
  have hdecode : decodeIntBytes ((encodeInt L 3 ++ bs).take 3) = L := by
    rw [htake]
    exact decodeIntBytes_encodeInt3 L h2
  have hdrop3 : (encodeInt L 3 ++ bs).drop 3 = bs := List.drop_left' hlen
  have htrunc : bs.take L = bs := List.take_of_length_le (by omega)
  have hdropall : (encodeInt L 3 ++ bs).drop (L + 3) = [] := by
    apply List.drop_eq_nil_of_le
    simp [hlen]
    omega
  rw [splitFrames, dif_neg hne]
  simp only [hdecode, hdrop3, hdropall, htrunc, splitFrames_nil]

theorem splitFrames_encodeFrame (a : List Nat) (h : a.length < 2 ^ 24) :
    splitFrames (encodeFrame a) = [a] := by
  have h2 := splitFrames_encodeFrame_append a [] h
  rw [List.append_nil] at h2
  rw [h2, splitFrames_nil]

theorem string_append_left_cancel {p s t : String} (h : p ++ s = p ++ t) :
    s = t := by
  apply String.ext
  have hd := congrArg String.data h
  rw [String.data_append, String.data_append] at hd
  exact List.append_cancel_left hd

theorem suffixStrings_nodup :
    ((List.range 99).map (fun j => toString (j + 1))).Nodup := by decide

theorem genSeq_ids_of_pfx (f p : String) :
    ∀ (n i : Nat), i + n ≤ 99 →
      (genSeq f n ⟨i, some p⟩).1 =
        (List.range n).map (fun j => p ++ "-" ++ toString (i + j + 1)) := by
  intro n
  induction n with
  | zero => intro i _; simp [genSeq]
  | succ m ih =>
      intro i h
      by_cases h99 : i + 1 = 99
      · have hm : m = 0 := by omega
        subst hm
        have hgen : generateMessageId f ⟨i, some p⟩ =
            (p ++ "-" ++ toString (i + 1), ⟨0, none⟩) := by
          simp [generateMessageId, h99]
        have h1 : List.range 1 = [0] := rfl
        simp only [genSeq, hgen, h1, List.map_cons, List.map_nil]
      · have hgen : generateMessageId f ⟨i, some p⟩ =
            (p ++ "-" ++ toString (i + 1), ⟨i + 1, some p⟩) := by
          simp [generateMessageId, h99]
        simp only [genSeq, hgen]
        rw [ih (i + 1) (by omega)]
        rw [List.range_succ_eq_map, List.map_cons, List.map_map]
        congr 1
        apply List.map_congr_left
        intro j _
        simp only [Function.comp_apply, Nat.succ_eq_add_one]
        congr 2
        omega

theorem genSeq_ids_init (f : String) (n : Nat) (h : n ≤ 99) :
    (genSeq f n ⟨0, none⟩).1 =
      (List.range n).map (fun j => f ++ "-" ++ toString (j + 1)) := by
  cases n with
  | zero => simp [genSeq]
  | succ m =>
      have hgen : generateMessageId f ⟨0, none⟩ =
          (f ++ "-" ++ toString 1, ⟨1, some f⟩) := by
        norm_num [generateMessageId]
      simp only [genSeq, hgen]
      rw [genSeq_ids_of_pfx f f m 1 (by omega)]
      rw [List.range_succ_eq_map, List.map_cons, List.map_map]
      congr 1
      apply List.map_congr_left
      intro j _
      simp only [Function.comp_apply, Nat.succ_eq_add_one]
      congr 2
      omega

theorem genSeq_final_of_pfx (f p : String) :
    ∀ (n i : Nat), i + n = 99 → 0 < n →
      (genSeq f n ⟨i, some p⟩).2 = ⟨0, none⟩ := by
  intro n
  induction n with
  | zero => intro i _ h0; omega
  | succ m ih =>
      intro i h _
      by_cases h99 : i + 1 = 99
      · have hm : m = 0 := by omega
        subst hm
        simp [genSeq, generateMessageId, h99]
      · have hgen : generateMessageId f ⟨i, some p⟩ =
            (p ++ "-" ++ toString (i + 1), ⟨i + 1, some p⟩) := by
          simp [generateMessageId, h99]
        simp only [genSeq, hgen]
        exact ih (i + 1) (by omega) (by omega)

theorem genSeq_succ_snd (f : String) (n : Nat) (st : MsgIdState) :
    (genSeq f (n + 1) st).2 = (genSeq f n (generateMessageId f st).2).2 := by
  simp [genSeq]

theorem genSeq_final_init (f : String) :
    (genSeq f 99 ⟨0, none⟩).2 = ⟨0, none⟩ := by
  have hgen : generateMessageId f ⟨0, none⟩ =
      (f ++ "-" ++ toString 1, ⟨1, some f⟩) := by
    norm_num [generateMessageId]
  rw [show (99 : Nat) = 98 + 1 from rfl, genSeq_succ_snd, hgen]
  exact genSeq_final_of_pfx f f 98 1 (by omega) (by omega)

theorem generateMessageId_spec (g : String) (c : Nat) (pfx : Option String)
    (h1 : c ≤ 98) :
    msgIdInv (generateMessageId g ⟨c, pfx⟩).2 ∧
    (generateMessageId g ⟨c, pfx⟩).1 =
      (match pfx with | none => g | some q => q) ++ "-" ++ toString (c + 1) ∧
    1 ≤ c + 1 ∧ c + 1 ≤ 99 := by
  refine ⟨?_, ?_, by omega, by omega⟩
  · by_cases hc : c + 1 = 99
    · simp [generateMessageId, hc, msgIdInv]
    · simp [generateMessageId, hc, msgIdInv]
      omega
  · by_cases hc : c + 1 = 99
    · simp [generateMessageId, hc]
    · simp [generateMessageId, hc]

theorem genIds_nodup (f : String) (n : Nat) (h : n ≤ 99) :
    ((List.range n).map (fun j => f ++ "-" ++ toString (j + 1))).Nodup := by
  have hsub : ((List.range n).map (fun j => toString (j + 1))).Sublist
      ((List.range 99).map (fun j => toString (j + 1))) :=
    (List.range_sublist.mpr h).map _
  have hnodup : ((List.range n).map (fun j => toString (j + 1))).Nodup :=
    hsub.nodup suffixStrings_nodup
  have hmm : (List.range n).map (fun j => f ++ "-" ++ toString (j + 1)) =
      ((List.range n).map (fun j => toString (j + 1))).map
        (fun s => f ++ "-" ++ s) := by
    rw [List.map_map]
    rfl
  rw [hmm]
  refine List.Nodup.map ?_ hnodup
  intro s t hst
  exact string_append_left_cancel (p := f ++ "-") hst

/-! ## Claim theorems -/

/-- C1 counterexample: the connection of a state whose pending-request table
holds an uncompleted slot for id "A" is closed, and afterwards that slot is
still present and still pending — `onClose` never fails pending requests
with ConnectionClosed, contradicting the claim that no pending request is
left uncompleted after close. -/
theorem c1_counterexample :
    (onClose ⟨false, none, none, none, [(some "A", DeferredState.pending)],
        false⟩).1.pendingRequest = [(some "A", DeferredState.pending)] := by
  rfl

/-- C1 (amended): closing the connection leaves the pending-request table
completely untouched — every pending request future stays uncompleted, none
is failed with ConnectionClosed — while the second half of the claim holds:
the table is a dict keyed by node id, and the insertion performed by
`request` keeps at most one outstanding slot per id. -/
theorem c1_close_keeps_pending_table (st : ConnState) (k : Option String)
    (v : DeferredState) (h : pendingKeysNodup st.pendingRequest) :
    (onClose st).1.pendingRequest = st.pendingRequest ∧
    pendingKeysNodup (dictInsert k v st.pendingRequest) := by
  constructor
  · cases hf : st.failure with
    | none => simp [onClose, hf]
    | some f =>
        by_cases ha : st.authDeferredPresent <;> simp [onClose, hf, ha]
  · exact dictInsert_keysNodup k v _ h

/-- C1 witness: the amended statement applied to a concrete state holding a
pending slot for id "B" and an insertion of id "A". -/
theorem c1_witness :
    (onClose ⟨true, some (.other "boom"), none, none,
        [(some "B", DeferredState.pending)], true⟩).1.pendingRequest =
      [(some "B", DeferredState.pending)] ∧
    pendingKeysNodup (dictInsert (some "A") DeferredState.pending
      [(some "B", DeferredState.pending)]) :=
  c1_close_keeps_pending_table
    ⟨true, some (.other "boom"), none, none,
      [(some "B", DeferredState.pending)], true⟩
    (some "A") DeferredState.pending (by simp [pendingKeysNodup])

/-- C2 counterexample: a handshake failure delivered to the errback that
`authenticate()` attaches (`_handleFailure` with its default
`disconnect=False`) sends no websocket close frame — in particular no
code-1000 close — and leaves the outer auth deferred unfailed (still
present), contradicting the claim. -/
theorem c2_counterexample :
    (doHandshakeErrback ⟨true, none, some ⟨[1], 0⟩, some ⟨[2], 0⟩, [], false⟩
        (.authenticationFailed "Noise certificate expired")).2 = [] ∧
    (doHandshakeErrback ⟨true, none, some ⟨[1], 0⟩, some ⟨[2], 0⟩, [], false⟩
        (.authenticationFailed "Noise certificate expired")).1.authDeferredPresent
      = true := by
  exact ⟨rfl, rfl⟩

/-- C2 (amended): an exception in the handshake driver reaches
`_handleFailure` with `disconnect` left at its default `False`: the failure
is recorded and the cipher pair is cleared (authentication being still
pending), but no close frame is sent and the auth future is not failed at
that point; the auth future is failed with that exact failure only when the
connection subsequently closes, and a code-1000 close is sent only when
`_handleFailure` is invoked with `disconnect=True`. -/
theorem c2_handshake_failure_path (st : ConnState) (f : PyException)
    (h : st.authDeferredPresent = true) :
    (doHandshakeErrback st f).2 = [] ∧
    (doHandshakeErrback st f).1.failure = some f ∧
    (doHandshakeErrback st f).1.sendCipher = none ∧
    (doHandshakeErrback st f).1.recvCipher = none ∧
    (doHandshakeErrback st f).1.authDeferredPresent = true ∧
    (onClose (doHandshakeErrback st f).1).2 = [CloseEffect.authFailure f] ∧
    (handleFailure st f true).2 = [Effect.sendClose 1000] := by
  simp [doHandshakeErrback, handleFailure, authDone, onClose, h]

/-- C2 witness: the amended statement at a concrete pre-auth state and a
concrete certificate failure. -/
theorem c2_witness :
    (doHandshakeErrback ⟨true, none, some ⟨[1], 0⟩, some ⟨[2], 0⟩, [], false⟩
        (.authenticationFailed "bad cert")).2 = [] ∧
    (doHandshakeErrback ⟨true, none, some ⟨[1], 0⟩, some ⟨[2], 0⟩, [], false⟩
        (.authenticationFailed "bad cert")).1.failure =
      some (.authenticationFailed "bad cert") ∧
    (doHandshakeErrback ⟨true, none, some ⟨[1], 0⟩, some ⟨[2], 0⟩, [], false⟩
        (.authenticationFailed "bad cert")).1.sendCipher = none ∧
    (doHandshakeErrback ⟨true, none, some ⟨[1], 0⟩, some ⟨[2], 0⟩, [], false⟩
        (.authenticationFailed "bad cert")).1.recvCipher = none ∧
    (doHandshakeErrback ⟨true, none, some ⟨[1], 0⟩, some ⟨[2], 0⟩, [], false⟩
        (.authenticationFailed "bad cert")).1.authDeferredPresent = true ∧
    (onClose (doHandshakeErrback
        ⟨true, none, some ⟨[1], 0⟩, some ⟨[2], 0⟩, [], false⟩
        (.authenticationFailed "bad cert")).1).2 =
      [CloseEffect.authFailure (.authenticationFailed "bad cert")] ∧
    (handleFailure ⟨true, none, some ⟨[1], 0⟩, some ⟨[2], 0⟩, [], false⟩
        (.authenticationFailed "bad cert") true).2 = [Effect.sendClose 1000] :=
  c2_handshake_failure_path
    ⟨true, none, some ⟨[1], 0⟩, some ⟨[2], 0⟩, [], false⟩
    (.authenticationFailed "bad cert") rfl

/-- C3 counterexample: after authentication is done (the auth deferred is
gone), `FailureHandler.handleNode` on a `<failure code="401"/>` node returns
without recording anything — no NodeStreamError is produced — and the
subsequent close of that unchanged state fires the clean-close event, not
`ConnectionClosed` with `isLoggedOut=true`, contradicting the claim. -/
theorem c3_counterexample :
    FailureHandler.handleNode ⟨false, none, none, none, [], false⟩
        (Node.mk "failure" [("code", "401")] .none) =
      .ok (⟨false, none, none, none, [], false⟩, []) ∧
    (onClose ⟨false, none, none, none, [], false⟩).2 =
      [CloseEffect.closeEvent
        (.connectionClosed false true "Connection Closed Cleanly")] := by
  exact ⟨rfl, rfl⟩

/-- C3 (amended): `failure` nodes dispatched after authentication are
ignored by `FailureHandler` (no NodeStreamError is created and no failure is
recorded); dispatched before authentication completes, the handler raises
`NameError` on the unbound name `attrs`; independently, the close path does
map a recorded `NodeStreamError` with code "401" (once the auth future is
gone) to a close event carrying `ConnectionClosed` with `isLoggedOut=true`. -/
theorem c3_failure_node_handling (st st401 : ConnState) (node : Node)
    (hAuth : authDone st = true)
    (h401 : st401.failure = some (.nodeStreamError "401"))
    (hA : st401.authDeferredPresent = false) :
    FailureHandler.handleNode st node = .ok (st, []) ∧
    (∀ st2 : ConnState, authDone st2 = false →
      FailureHandler.handleNode st2 node = .error (.nameError "attrs")) ∧
    (onClose st401).2 =
      [CloseEffect.closeEvent
        (.connectionClosed true true "Device Logged Out")] := by
  refine ⟨?_, ?_, ?_⟩
  · simp [FailureHandler.handleNode, hAuth]
  · intro st2 h2
    simp [FailureHandler.handleNode, h2]
  · simp [onClose, closeReason, h401, hA]

/-- C3 witness: the amended statement at a concrete post-auth state, a
concrete state with a recorded 401 stream error, and a concrete failure
node. -/
theorem c3_witness :
    FailureHandler.handleNode ⟨false, none, none, none, [], false⟩
        (Node.mk "failure" [("code", "401"), ("reason", "x")] .none) =
      .ok (⟨false, none, none, none, [], false⟩, []) ∧
    (∀ st2 : ConnState, authDone st2 = false →
      FailureHandler.handleNode st2
          (Node.mk "failure" [("code", "401"), ("reason", "x")] .none) =
        .error (.nameError "attrs")) ∧
    (onClose ⟨false, some (.nodeStreamError "401"), none, none, [], false⟩).2 =
      [CloseEffect.closeEvent
        (.connectionClosed true true "Device Logged Out")] :=
  c3_failure_node_handling
    ⟨false, none, none, none, [], false⟩
    ⟨false, some (.nodeStreamError "401"), none, none, [], false⟩
    (Node.mk "failure" [("code", "401"), ("reason", "x")] .none)
    rfl rfl rfl

/-- C4 counterexample: a certificate whose `expires` equals the current wall
time passes verification (the code only rejects `expires < now`), while the
claim requires it to fail with "Noise certificate expired". -/
theorem c4_counterexample :
    verifyCertificate "iss" true [7] ⟨"iss", [7], some 1000⟩ 1000 = .ok () := by
  rfl

/-- C4 (amended): when the issuer, signature and key checks pass and
`expires` is present, verification fails — with
AuthenticationFailed("Noise certificate expired") — exactly when
`expires < now`; it succeeds exactly when `now ≤ expires`, so a certificate
with `expires` equal to the current time passes. -/
theorem c4_certificate_expiry (issuerConst : String) (rs : List Nat)
    (det : CertDetails) (now e : Nat)
    (hIss : det.issuer = issuerConst) (hKey : det.key = rs)
    (hExp : det.expires = some e) :
    (verifyCertificate issuerConst true rs det now = .ok () ↔ now ≤ e) ∧
    (e < now → verifyCertificate issuerConst true rs det now =
      .error (.authenticationFailed "Noise certificate expired")) := by
  constructor
  · constructor
    · intro hok
      by_cases hlt : e < now
      · exfalso
        simp [verifyCertificate, hIss, hKey, hExp, hlt] at hok
      · omega
    · intro hle
      have hlt : ¬ e < now := by omega
      simp [verifyCertificate, hIss, hKey, hExp, hlt]
  · intro hlt
    simp [verifyCertificate, hIss, hKey, hExp, hlt]

/-- C4 witness: the amended statement at a concrete certificate whose
`expires` equals the current time, together with the boundary facts. -/
theorem c4_witness :
    (verifyCertificate "iss" true [7] ⟨"iss", [7], some 1000⟩ 1000 = .ok () ↔
      1000 ≤ 1000) ∧
    (1000 < 1000 → verifyCertificate "iss" true [7] ⟨"iss", [7], some 1000⟩ 1000 =
      .error (.authenticationFailed "Noise certificate expired")) :=
  c4_certificate_expiry "iss" [7] ⟨"iss", [7], some 1000⟩ 1000 1000 rfl rfl rfl

/-- C5 counterexample: calling `request` on a connection that is not
authenticated (no send cipher) mutates the pending-request table — the slot
for id "A" is inserted before the send is attempted — and lets an
`AttributeError` propagate instead of returning a future failed with a
precondition error; this contradicts the claim that the connection state,
including the pending table, is left unchanged. -/
theorem c5_counterexample :
    (request (fun _ => []) (fun c _ p => (c, p))
        ⟨true, none, none, none, [], false⟩
        (Node.mk "iq" [("id", "A")] .none)).state.pendingRequest =
      [(some "A", DeferredState.pending)] ∧
    (request (fun _ => []) (fun c _ p => (c, p))
        ⟨true, none, none, none, [], false⟩
        (Node.mk "iq" [("id", "A")] .none)).outcome =
      .error (.attributeError "NoneType object has no attribute encrypt_with_ad") := by
  exact ⟨rfl, rfl⟩

/-- C5 (amended): calling `request(node)` while the connection is not
authenticated (the send cipher is absent) sends no bytes and raises an
`AttributeError` synchronously — the exception propagates to the caller
instead of a returned failed future — but the pending-request table is
mutated first: the slot for `node['id']` is inserted and survives the
exception. -/
theorem c5_request_before_auth (writeNode : Node → List Nat)
    (encryptWithAd : CipherSt → List Nat → List Nat → CipherSt × List Nat)
    (st : ConnState) (node : Node) (h : st.sendCipher = none) :
    request writeNode encryptWithAd st node =
      ⟨{ st with pendingRequest :=
            dictInsert (node.attr "id") .pending st.pendingRequest },
        [],
        .error (.attributeError "NoneType object has no attribute encrypt_with_ad")⟩ := by
  simp [request, sendMessageNode, h]

/-- C5 witness: the amended statement at a concrete unauthenticated state
and a concrete iq node. -/
theorem c5_witness :
    request (fun _ => []) (fun c _ p => (c, p))
        ⟨true, none, none, none, [(some "B", DeferredState.pending)], false⟩
        (Node.mk "iq" [("id", "A")] .none) =
      ⟨⟨true, none, none, none,
          [(some "B", DeferredState.pending), (some "A", DeferredState.pending)],
          false⟩,
        [],
        .error (.attributeError "NoneType object has no attribute encrypt_with_ad")⟩ :=
  c5_request_before_auth (fun _ => []) (fun c _ p => (c, p))
    ⟨true, none, none, none, [(some "B", DeferredState.pending)], false⟩
    (Node.mk "iq" [("id", "A")] .none) rfl

/-- C6 counterexample: an inbound websocket message whose single frame
declares length 5 but carries only one remaining byte is split into the
silently truncated frame `[170]` — the loop raises nothing, there is no
MalformedFrame, contradicting the claim. -/
theorem c6_counterexample :
    splitFrames [0, 0, 5, 170] = [[170]] := by
  exact splitFrames_truncated 5 [170] (by decide) (by decide)

/-- C6 (amended): when a frame's declared 24-bit big-endian length exceeds
the number of bytes remaining in the buffer, the decoder does not fail:
Python slicing truncates, so the loop yields the remaining bytes as a single
short frame and terminates; no MalformedFrame is raised (the error can only
surface later, at AEAD decryption of the truncated ciphertext). -/
theorem c6_truncated_frame (L : Nat) (bs : List Nat)
    (h1 : bs.length < L) (h2 : L < 2 ^ 24) :
    splitFrames (encodeInt L 3 ++ bs) = [bs] :=
  splitFrames_truncated L bs h1 h2

/-- C6 witness: the amended statement at the concrete truncated message
`[0, 0, 5, 170]`. -/
theorem c6_witness : splitFrames (encodeInt 5 3 ++ [170]) = [[170]] :=
  c6_truncated_frame 5 [170] (by decide) (by decide)

/-- C7: two ciphertexts sealed independently (each decrypting, under the
successive receive-cipher states, to an uncompressed flag byte followed by
the encoding of a node) and concatenated as two length-prefixed frames in a
single inbound websocket binary message are split by the decoder, and the
dispatcher sees exactly the sequence [N1, N2] in that order. -/
theorem c7_two_frames_in_order (cd : InboundCodec) (st : ConnState)
    (c0 c1' c2' : CipherSt) (c1enc c2enc p1 p2 : List Nat) (N1 N2 : Node)
    (hrc : st.recvCipher = some c0)
    (hd1 : cd.decryptWithAd c0 c1enc = .ok (c1', 0 :: p1))
    (hn1 : cd.readNode p1 = .ok N1)
    (hd2 : cd.decryptWithAd c1' c2enc = .ok (c2', 0 :: p2))
    (hn2 : cd.readNode p2 = .ok N2)
    (hl1 : c1enc.length < 2 ^ 24) (hl2 : c2enc.length < 2 ^ 24) :
    onMessage cd st (encodeFrame c1enc ++ encodeFrame c2enc) =
      .ok ({ st with recvCipher := some c2' }, [N1, N2], []) := by
  unfold onMessage
  rw [splitFrames_encodeFrame_append _ _ hl1, splitFrames_encodeFrame _ hl2]
  simp [onMessageFrames, decodeFramePlain, FLAG_COMPRESSED, hrc, hd1, hd2, hn1, hn2]

/-- C7 witness: a concrete two-frame message under an identity cipher and a
byte-content node decoder. -/
theorem c7_witness :
    onMessage
        ⟨fun c e => .ok (c, e), fun bs => .ok bs,
          fun bs => .ok (Node.mk "m" [] (.bytes bs))⟩
        ⟨false, none, none, some ⟨[], 0⟩, [], true⟩
        (encodeFrame [0, 1] ++ encodeFrame [0, 2]) =
      .ok (⟨false, none, none, some ⟨[], 0⟩, [], true⟩,
        [Node.mk "m" [] (.bytes [1]), Node.mk "m" [] (.bytes [2])], []) :=
  c7_two_frames_in_order
    ⟨fun c e => .ok (c, e), fun bs => .ok bs,
      fun bs => .ok (Node.mk "m" [] (.bytes bs))⟩
    ⟨false, none, none, some ⟨[], 0⟩, [], true⟩
    ⟨[], 0⟩ ⟨[], 0⟩ ⟨[], 0⟩ [0, 1] [0, 2] [1] [2]
    (Node.mk "m" [] (.bytes [1])) (Node.mk "m" [] (.bytes [2]))
    rfl rfl rfl rfl rfl (by decide) (by decide)

/-- C8: the client payload builder selects its mode by presence of
`authState.me`.  With `me` absent it emits `passive=false` and a
CompanionRegData whose `eRegid` is the 4-byte big-endian registration id,
`eKeytype` the single byte 5, `eIdent` the signed identity public key bytes,
`eSkeyId` the 3-byte big-endian signed prekey id, `eSkeyVal` the signed
prekey public bytes and `eSkeySig` its signature.  With `me` present it
emits `passive=true` with no regData, `username = int(user)` and
`device = int(device)` from splitting `me.jid`. -/
theorem c8_clientPayload_modes
    (browser : String × String × String) (version : Nat × Nat × Nat)
    (buildHashDecoded : List Nat)
    (splitJid : String → String × String × String × String)
    (auth : AuthStateM) :
    (auth.me = none →
      buildClientPayloadHandshake browser version buildHashDecoded splitJid auth =
        .ok { connectReason := 1, connectType := 1, passive := false,
              regData := some
                { buildHash := buildHashDecoded,
                  companionProps :=
                    { os := browser.1, versionPrimary := 10,
                      platformType := 1, requireFullSync := false },
                  eRegid := encodeInt auth.registrationId 4,
                  eKeytype := [5],
                  eIdent := auth.signedIdentityKeyPub,
                  eSkeyId := encodeInt auth.signedPrekeyId 3,
                  eSkeyVal := auth.signedPrekeyPub,
                  eSkeySig := auth.signedPrekeySig },
              username := none, device := none,
              userAgent :=
                { appVersionPrimary := version.1,
                  appVersionSecondary := version.2.1,
                  appVersionTertiary := version.2.2,
                  platform := 14, releaseChannel := 0,
                  mcc := "000", mnc := "000",
                  osVersion := browser.2.2, manufacturer := "",
                  device := browser.2.1, osBuildNumber := "0.1",
                  localeLanguageIso6391 := "en",
                  localeCountryIso31661Alpha2 := "en" },
              webInfoWebSubPlatform := 0 }) ∧
    (∀ (m : MeRecord) (user agent device server : String) (un dn : Nat),
      auth.me = some m →
      splitJid m.jid = (user, agent, device, server) →
      parsePyInt user = .ok un →
      parsePyInt device = .ok dn →
      buildClientPayloadHandshake browser version buildHashDecoded splitJid auth =
        .ok { connectReason := 1, connectType := 1, passive := true,
              regData := none,
              username := some un, device := some dn,
              userAgent :=
                { appVersionPrimary := version.1,
                  appVersionSecondary := version.2.1,
                  appVersionTertiary := version.2.2,
                  platform := 14, releaseChannel := 0,
                  mcc := "000", mnc := "000",
                  osVersion := browser.2.2, manufacturer := "",
                  device := browser.2.1, osBuildNumber := "0.1",
                  localeLanguageIso6391 := "en",
                  localeCountryIso31661Alpha2 := "en" },
              webInfoWebSubPlatform := 0 }) := by
  constructor
  · intro hme
    simp [buildClientPayloadHandshake, hme]
    rfl
  · intro m user agent device server un dn hme hsplit hu hd
    simp [buildClientPayloadHandshake, hme, hsplit, hu, hd]

/-- C8 witness: the builder at a concrete pairing-mode AuthState (no `me`)
and at a concrete resume-mode AuthState with jid pieces "12345" / "7". -/
theorem c8_witness :
    buildClientPayloadHandshake ("Chrome", "Browser", "104") (2, 2228, 12) [9, 8]
        (fun _ => ("12345", "", "7", "s.whatsapp.net"))
        ⟨258, [1, 2], 1, [3, 4], [5, 6], none⟩ =
      .ok { connectReason := 1, connectType := 1, passive := false,
            regData := some
              { buildHash := [9, 8],
                companionProps :=
                  { os := "Chrome", versionPrimary := 10,
                    platformType := 1, requireFullSync := false },
                eRegid := encodeInt 258 4,
                eKeytype := [5],
                eIdent := [1, 2],
                eSkeyId := encodeInt 1 3,
                eSkeyVal := [3, 4],
                eSkeySig := [5, 6] },
            username := none, device := none,
            userAgent :=
              { appVersionPrimary := 2, appVersionSecondary := 2228,
                appVersionTertiary := 12,
                platform := 14, releaseChannel := 0,
                mcc := "000", mnc := "000",
                osVersion := "104", manufacturer := "",
                device := "Browser", osBuildNumber := "0.1",
                localeLanguageIso6391 := "en",
                localeCountryIso31661Alpha2 := "en" },
            webInfoWebSubPlatform := 0 } ∧
    buildClientPayloadHandshake ("Chrome", "Browser", "104") (2, 2228, 12) [9, 8]
        (fun _ => ("12345", "", "7", "s.whatsapp.net"))
        ⟨258, [1, 2], 1, [3, 4], [5, 6], some ⟨"12345.0:7@s.whatsapp.net"⟩⟩ =
      .ok { connectReason := 1, connectType := 1, passive := true,
            regData := none,
            username := some 12345, device := some 7,
            userAgent :=
              { appVersionPrimary := 2, appVersionSecondary := 2228,
                appVersionTertiary := 12,
                platform := 14, releaseChannel := 0,
                mcc := "000", mnc := "000",
                osVersion := "104", manufacturer := "",
                device := "Browser", osBuildNumber := "0.1",
                localeLanguageIso6391 := "en",
                localeCountryIso31661Alpha2 := "en" },
            webInfoWebSubPlatform := 0 } :=
  ⟨(c8_clientPayload_modes ("Chrome", "Browser", "104") (2, 2228, 12) [9, 8]
      (fun _ => ("12345", "", "7", "s.whatsapp.net"))
      ⟨258, [1, 2], 1, [3, 4], [5, 6], none⟩).1 rfl,
   (c8_clientPayload_modes ("Chrome", "Browser", "104") (2, 2228, 12) [9, 8]
      (fun _ => ("12345", "", "7", "s.whatsapp.net"))
      ⟨258, [1, 2], 1, [3, 4], [5, 6], some ⟨"12345.0:7@s.whatsapp.net"⟩⟩).2
     ⟨"12345.0:7@s.whatsapp.net"⟩ "12345" "" "7" "s.whatsapp.net" 12345 7
     rfl rfl (by rfl) (by rfl)⟩

/-- C9: from a fresh generator state, the first `n ≤ 99` calls (with fresh
prefix `f` drawn when the prefix is absent) return exactly the ids
`f-1, f-2, …, f-n` — so suffixes lie in 1..99, strictly increase within the
prefix period, and no two ids under the same prefix are equal (the list is
duplicate-free); the call returning suffix "99" resets the state so the
prefix is regenerated; and a single call from any state satisfying the
reachability invariant preserves the invariant and returns
`prefix ++ "-" ++ str(counter+1)` with `counter+1` between 1 and 99, so a
suffix of "100" is never produced. -/
theorem c9_message_id_generator (f : String) (n : Nat) (hn : n ≤ 99) :
    (genSeq f n ⟨0, none⟩).1 =
        (List.range n).map (fun j => f ++ "-" ++ toString (j + 1)) ∧
    (genSeq f n ⟨0, none⟩).1.Nodup ∧
    (genSeq f 99 ⟨0, none⟩).2 = ⟨0, none⟩ ∧
    (∀ (g : String) (st : MsgIdState), msgIdInv st →
      msgIdInv (generateMessageId g st).2 ∧
      (generateMessageId g st).1 =
        (match st.messageTagPfx with | none => g | some q => q) ++ "-" ++
          toString (st.messageTagCounter + 1) ∧
      1 ≤ st.messageTagCounter + 1 ∧ st.messageTagCounter + 1 ≤ 99) := by
  refine ⟨genSeq_ids_init f n hn, ?_, genSeq_final_init f, ?_⟩
  · rw [genSeq_ids_init f n hn]
    exact genIds_nodup f n hn
  · intro g st hinv
    obtain ⟨h1, h2⟩ := hinv
    obtain ⟨c, pfx⟩ := st
    exact generateMessageId_spec g c pfx h1

/-- C9 witness: a full 99-id period with the concrete fresh prefix
"00000.00000". -/
theorem c9_witness :
    (genSeq "00000.00000" 99 ⟨0, none⟩).1 =
        (List.range 99).map (fun j => "00000.00000" ++ "-" ++ toString (j + 1)) ∧
    (genSeq "00000.00000" 99 ⟨0, none⟩).1.Nodup ∧
    (genSeq "00000.00000" 99 ⟨0, none⟩).2 = ⟨0, none⟩ ∧
    (∀ (g : String) (st : MsgIdState), msgIdInv st →
      msgIdInv (generateMessageId g st).2 ∧
      (generateMessageId g st).1 =
        (match st.messageTagPfx with | none => g | some q => q) ++ "-" ++
          toString (st.messageTagCounter + 1) ∧
      1 ≤ st.messageTagCounter + 1 ∧ st.messageTagCounter + 1 ≤ 99) :=
  c9_message_id_generator "00000.00000" 99 (by decide)

/-- C10: on connection close exactly one event is emitted: when a failure
was recorded and the auth future is still present, that future is failed
with the recorded failure (and no close event fires); otherwise a single
close event fires carrying a ConnectionClosedError — isLoggedOut=true for a
recorded NodeStreamError with code "401", isAuthDone=false for a recorded
AuthenticationFailedError, a clean-close reason when no failure was
recorded, and descriptive reasons for the remaining cases. -/
theorem c10_onClose_exactly_one_event (st : ConnState) :
    (onClose st).2 =
      [match st.failure, st.authDeferredPresent with
       | none, _ =>
           CloseEffect.closeEvent
             (.connectionClosed false true "Connection Closed Cleanly")
       | some f, true => CloseEffect.authFailure f
       | some (.nodeStreamError c), false =>
           if c = "401" then
             CloseEffect.closeEvent
               (.connectionClosed true true "Device Logged Out")
           else
             CloseEffect.closeEvent
               (.connectionClosed false true "Unhandled Stream Error")
       | some (.authenticationFailed _), false =>
           CloseEffect.closeEvent
             (.connectionClosed false false "Authentication Failed")
       | some f, false =>
           CloseEffect.closeEvent
             (.connectionClosed false true
               ("Unknown Failure: \n" ++ f.describe))] := by
  obtain ⟨ad, fl, sc, rc, pr, ka⟩ := st
  cases fl with
  | none => cases ad <;> rfl
  | some f =>
      cases ad
      · cases f <;> simp [onClose, closeReason, apply_ite]
      · cases f <;> rfl

end Wamd
